import Mathlib

set_option maxHeartbeats 1000000

/-
Verification development for `skills/nextjs-pwa/scripts/generate_pwa_config.py`.

The script is embedded shallowly: every template literal is transcribed
line by line, Python's `textwrap.dedent` is modelled faithfully
(lines consisting solely of whitespace are normalised to empty lines,
the common leading whitespace of the remaining lines is computed, and
that margin is stripped from the start of every line), and `main`
becomes a pure function from the parsed request to the ordered list of
`(path, content)` pairs that are handed to `write_file`.
-/

/-- Python regex class `[ \t]` used by `textwrap.dedent`. -/
def isWs (c : Char) : Bool := c == ' ' || c == '\t'

/-- Longest common prefix of two character lists: the net effect of the
margin-narrowing loop of `textwrap.dedent`. -/
def lcp : List Char → List Char → List Char
  | x :: xs, y :: ys => if x == y then x :: lcp xs ys else []
  | _, _ => []

/-- Prepend a character to the first line of a split result. -/
def consHead (c : Char) : List (List Char) → List (List Char)
  | [] => [[c]]
  | l :: ls => (c :: l) :: ls

/-- `text.split("\n")` on character lists; the result is never empty. -/
def splitNl : List Char → List (List Char)
  | [] => [[]]
  | c :: cs => if c = '\n' then [] :: splitNl cs else consHead c (splitNl cs)

/-- `"\n".join(...)` on character lists, the inverse of `splitNl`. -/
def joinNl : List (List Char) → List Char
  | [] => []
  | [l] => l
  | l :: l2 :: ls => l ++ '\n' :: joinNl (l2 :: ls)

/-- First phase of `textwrap.dedent`: lines consisting solely of
whitespace are normalised to empty lines (`_whitespace_only_re.sub`). -/
def normBlank (l : List Char) : List Char := if l.all isWs then [] else l

/-- Boolean list-prefix test (`str.startswith`; the anchored margin
substitution of `textwrap.dedent`). -/
def pfx : List Char → List Char → Bool
  | [], _ => true
  | _ :: _, [] => false
  | a :: as, b :: bs => a == b && pfx as bs

/-- The margin-narrowing loop of `textwrap.dedent` over the indents of
the lines that carry a non-whitespace character: the first indent seeds
`margin`, every further indent narrows it to the common prefix. -/
def marginFold : List (List Char) → List Char
  | [] => []
  | l :: rest => rest.foldl (fun m l2 => lcp m (l2.takeWhile isWs)) (l.takeWhile isWs)

/-- The common leading whitespace of all non-empty normalised lines:
`margin` in `textwrap.dedent`.  `[]` plays the role of Python's `None`
or empty margin, in which case nothing is stripped. -/
def marginOf (ls : List (List Char)) : List Char :=
  marginFold (ls.filter (fun l => !l.isEmpty))

/-- Strip `m` from the front of every line that starts with it
(`re.sub(r'(?m)^' + margin, '', text)`). -/
def stripMargin (m l : List Char) : List Char :=
  if pfx m l then l.drop m.length else l

/-- Second phase of `textwrap.dedent`, applied to the normalised lines. -/
def applyMargin (m : List Char) (ls : List (List Char)) : List Char :=
  if m.isEmpty then joinNl ls else joinNl (ls.map (stripMargin m))

/-- Character-list core of `textwrap.dedent`. -/
def dedentL (cs : List Char) : List Char :=
  applyMargin (marginOf ((splitNl cs).map normBlank)) ((splitNl cs).map normBlank)

/-- Python `textwrap.dedent`. -/
def dedent (s : String) : String := String.mk (dedentL s.data)

/-- Naive substring test: does `pat` occur contiguously in `s`? -/
def containsL (s pat : List Char) : Bool :=
  match s with
  | [] => pat.isEmpty
  | _ :: tail => pfx pat s || containsL tail pat

/-- `pat in s` at `String` level. -/
def strContains (s pat : String) : Bool := containsL s.data pat.data

/-- Python string slice `s[:12]`: the first 12 code points. -/
def take12 (s : String) : String := String.mk (s.data.take 12)

/-- Join a list of source lines with newlines; used to transcribe each
multi-line template literal of the script verbatim. -/
def linesToRaw (ls : List String) : String := String.mk (joinNl (ls.map String.data))

/-- The f-string literal of `generate_manifest` (source lines 26-50),
line for line, with `{project_name}` and `{project_name[:12]}` spliced
in.  The final entry is the four-space indentation that precedes the
closing quotes of the literal. -/
def manifestLines (project_name : String) : List String :=
  [ "        import type \x7b MetadataRoute \x7d from \"next\";",
    "",
    "        export default function manifest(): MetadataRoute.Manifest \x7b",
    "          return \x7b",
    "            name: \"" ++ project_name ++ "\",",
    "            short_name: \"" ++ take12 project_name ++ "\",",
    "            description: \"A Progressive Web App built with Next.js\",",
    "            start_url: \"/\",",
    "            display: \"standalone\",",
    "            background_color: \"#ffffff\",",
    "            theme_color: \"#000000\",",
    "            icons: [",
    "              \x7b src: \"/icons/icon-192.png\", sizes: \"192x192\", type: \"image/png\" \x7d,",
    "              \x7b src: \"/icons/icon-512.png\", sizes: \"512x512\", type: \"image/png\" \x7d,",
    "              \x7b",
    "                src: \"/icons/icon-maskable-512.png\",",
    "                sizes: \"512x512\",",
    "                type: \"image/png\",",
    "                purpose: \"maskable\",",
    "              \x7d,",
    "            ],",
    "          \x7d;",
    "        \x7d",
    "    " ]

/-- `generate_manifest`: relative path and content of the manifest file. -/
def generate_manifest (project_name : String) : String × String :=
  ("app/manifest.ts", dedent (linesToRaw (manifestLines project_name)))

/-- Template literal of `generate_offline_page` (source lines 55-65). -/
def offlinePageLines : List String :=
  [ "        export default function OfflinePage() \x7b",
    "          return (",
    "            <main style=\x7b\x7b textAlign: \"center\", padding: \"4rem 1rem\" \x7d\x7d>",
    "              <h1>You are offline</h1>",
    "              <p>Check your internet connection and try again.</p>",
    "              <button onClick=\x7b() => window.location.reload()\x7d>Retry</button>",
    "            </main>",
    "          );",
    "        \x7d",
    "    " ]

def generate_offline_page : String × String :=
  ("app/offline/page.tsx", dedent (linesToRaw offlinePageLines))

/-- Source lines 75-90: the serwist "push" handler exactly as written
inside the `push_handlers` literal (eight-space indentation). -/
def serwistPushRawLines : List String :=
  [ "        self.addEventListener(\"push\", (event) => \x7b",
    "          const data = event.data?.json() ?? \x7b",
    "            title: \"Notification\",",
    "            body: \"You have a new notification\",",
    "          \x7d;",
    "",
    "          event.waitUntil(",
    "            self.registration.showNotification(data.title, \x7b",
    "              body: data.body,",
    "              icon: \"/icons/icon-192.png\",",
    "              badge: \"/icons/icon-72.png\",",
    "              tag: data.tag ?? \"default\",",
    "              data: data.data,",
    "            \x7d)",
    "          );",
    "        \x7d);" ]

/-- Source lines 93-107: the serwist "notificationclick" handler. -/
def serwistClickRawLines : List String :=
  [ "        self.addEventListener(\"notificationclick\", (event) => \x7b",
    "          event.notification.close();",
    "          const targetUrl = event.notification.data?.url ?? \"/\";",
    "",
    "          event.waitUntil(",
    "            self.clients.matchAll(\x7b type: \"window\" \x7d).then((clients) => \x7b",
    "              for (const client of clients) \x7b",
    "                if (client.url === targetUrl && \"focus\" in client) \x7b",
    "                  return client.focus();",
    "                \x7d",
    "              \x7d",
    "              return self.clients.openWindow(targetUrl);",
    "            \x7d)",
    "          );",
    "        \x7d);" ]

/-- The complete `push_handlers` literal of `generate_serwist_sw`
(source lines 72-108), before `textwrap.dedent`: it opens with two
newlines, carries the two handler blocks with their comment headers,
and closes with the eight-space indentation before the quotes. -/
def serwistPushHandlersRaw : String :=
  linesToRaw (["", "", "        // Handle push notifications"] ++ serwistPushRawLines
    ++ ["", "        // Handle notification clicks"] ++ serwistClickRawLines ++ ["        "])

/-- The serwist "push" handler block as it is spliced (after dedent,
at column zero) into the emitted worker script. -/
def serwistPushBlock : String := dedent (linesToRaw serwistPushRawLines)

/-- The serwist "notificationclick" handler block after dedent. -/
def serwistClickBlock : String := dedent (linesToRaw serwistClickRawLines)

/-- Source lines 111-139 of the serwist worker f-string (everything
before the `{push_handlers}` line). -/
def serwistSwLinesA : List String :=
  [ "        import \x7b defaultCache \x7d from \"@serwist/next/worker\";",
    "        import type \x7b PrecacheEntry, SerwistGlobalConfig \x7d from \"serwist\";",
    "        import \x7b Serwist \x7d from \"serwist\";",
    "",
    "        declare global \x7b",
    "          interface WorkerGlobalScope extends SerwistGlobalConfig \x7b",
    "            __SW_MANIFEST: (PrecacheEntry | string)[] | undefined;",
    "          \x7d",
    "        \x7d",
    "",
    "        declare const self: ServiceWorkerGlobalScope;",
    "",
    "        const serwist = new Serwist(\x7b",
    "          precacheEntries: self.__SW_MANIFEST,",
    "          skipWaiting: true,",
    "          clientsClaim: true,",
    "          navigationPreload: true,",
    "          runtimeCaching: defaultCache,",
    "          fallbacks: \x7b",
    "            entries: [",
    "              \x7b",
    "                url: \"/offline\",",
    "                matcher(\x7b request \x7d) \x7b",
    "                  return request.destination === \"document\";",
    "                \x7d,",
    "              \x7d,",
    "            ],",
    "          \x7d,",
    "        \x7d);" ]

/-- The f-string literal of `generate_serwist_sw` before dedent: the
fixed head, the line `        {push_handlers}` (where `push_handlers`
is the dedented handler text when `push` is set and `""` otherwise),
and the fixed tail of the literal. -/
def serwistSwRaw (push : Bool) : String :=
  linesToRaw serwistSwLinesA ++ "\n        "
    ++ (if push then dedent serwistPushHandlersRaw else "")
    ++ "\n" ++ linesToRaw ["        serwist.addEventListeners();", "    "]

def generate_serwist_sw (push : Bool) : String × String :=
  ("app/sw.ts", dedent (serwistSwRaw push))

/-- Template literal of `generate_serwist_config` (source lines 147-160). -/
def serwistConfigLines : List String :=
  [ "        import withSerwist from \"@serwist/next\";",
    "        import type \x7b NextConfig \x7d from \"next\";",
    "",
    "        const nextConfig: NextConfig = \x7b",
    "          // Your existing Next.js config here",
    "        \x7d;",
    "",
    "        export default withSerwist(\x7b",
    "          swSrc: \"app/sw.ts\",",
    "          swDest: \"public/sw.js\",",
    "          disable: process.env.NODE_ENV === \"development\",",
    "        \x7d)(nextConfig);",
    "    " ]

def generate_serwist_config : String × String :=
  ("next.config.ts", dedent (linesToRaw serwistConfigLines))

/-- Source lines 169-181: the manual "push" handler as written inside
the `push_handlers` literal of `generate_manual_sw`. -/
def manualPushRawLines : List String :=
  [ "        self.addEventListener(\"push\", (event) => \x7b",
    "          const data = event.data ? event.data.json() : \x7b title: \"Notification\" \x7d;",
    "",
    "          event.waitUntil(",
    "            self.registration.showNotification(data.title, \x7b",
    "              body: data.body || \"\",",
    "              icon: \"/icons/icon-192.png\",",
    "              badge: \"/icons/icon-72.png\",",
    "              tag: data.tag || \"default\",",
    "              data: data.data,",
    "            \x7d)",
    "          );",
    "        \x7d);" ]

/-- Source lines 183-197: the manual "notificationclick" handler. -/
def manualClickRawLines : List String :=
  [ "        self.addEventListener(\"notificationclick\", (event) => \x7b",
    "          event.notification.close();",
    "          const targetUrl = event.notification.data?.url || \"/\";",
    "",
    "          event.waitUntil(",
    "            self.clients.matchAll(\x7b type: \"window\" \x7d).then((clients) => \x7b",
    "              for (const client of clients) \x7b",
    "                if (client.url === targetUrl && \"focus\" in client) \x7b",
    "                  return client.focus();",
    "                \x7d",
    "              \x7d",
    "              return self.clients.openWindow(targetUrl);",
    "            \x7d)",
    "          );",
    "        \x7d);" ]

/-- The complete `push_handlers` literal of `generate_manual_sw`
(source lines 167-198), before `textwrap.dedent`. -/
def manualPushHandlersRaw : String :=
  linesToRaw (["", "        // ------- Push Notifications -------"] ++ manualPushRawLines
    ++ [""] ++ manualClickRawLines ++ ["        "])

/-- The manual "push" handler block after dedent, as spliced. -/
def manualPushBlock : String := dedent (linesToRaw manualPushRawLines)

/-- The manual "notificationclick" handler block after dedent. -/
def manualClickBlock : String := dedent (linesToRaw manualClickRawLines)

/-- Source lines 201-247 of the manual worker f-string (everything
before the `{push_handlers}` line). -/
def manualSwLinesA : List String :=
  [ "        const CACHE_VERSION = \"v1\";",
    "        const CACHE_NAME = `app-$\x7bCACHE_VERSION\x7d`;",
    "",
    "        const PRECACHE_URLS = [\"/\", \"/offline\"];",
    "",
    "        self.addEventListener(\"install\", (event) => \x7b",
    "          event.waitUntil(",
    "            caches.open(CACHE_NAME).then((cache) => cache.addAll(PRECACHE_URLS))",
    "          );",
    "          self.skipWaiting();",
    "        \x7d);",
    "",
    "        self.addEventListener(\"activate\", (event) => \x7b",
    "          event.waitUntil(",
    "            caches.keys().then((keys) =>",
    "              Promise.all(",
    "                keys.filter((key) => key !== CACHE_NAME).map((key) => caches.delete(key))",
    "              )",
    "            )",
    "          );",
    "          self.clients.claim();",
    "        \x7d);",
    "",
    "        self.addEventListener(\"fetch\", (event) => \x7b",
    "          const \x7b request \x7d = event;",
    "          const url = new URL(request.url);",
    "",
    "          if (request.method !== \"GET\") return;",
    "          if (url.origin !== self.location.origin) return;",
    "",
    "          if (request.mode === \"navigate\") \x7b",
    "            event.respondWith(",
    "              fetch(request)",
    "                .then((response) => \x7b",
    "                  const clone = response.clone();",
    "                  caches.open(CACHE_NAME).then((cache) => cache.put(request, clone));",
    "                  return response;",
    "                \x7d)",
    "                .catch(() => caches.match(\"/offline\"))",
    "            );",
    "            return;",
    "          \x7d",
    "",
    "          event.respondWith(",
    "            caches.match(request).then((cached) => cached || fetch(request))",
    "          );",
    "        \x7d);" ]

/-- The f-string literal of `generate_manual_sw` before dedent: the
fixed head, the `        {push_handlers}` line, and the final
four-space indentation before the closing quotes. -/
def manualSwRaw (push : Bool) : String :=
  linesToRaw manualSwLinesA ++ "\n        "
    ++ (if push then dedent manualPushHandlersRaw else "")
    ++ "\n    "

def generate_manual_sw (push : Bool) : String × String :=
  ("public/sw.js", dedent (manualSwRaw push))

/-- Template literal of `generate_sw_registration` (source lines 254-270). -/
def swRegistrationLines : List String :=
  [ "        \"use client\";",
    "",
    "        import \x7b useEffect \x7d from \"react\";",
    "",
    "        export function ServiceWorkerRegistration() \x7b",
    "          useEffect(() => \x7b",
    "            if (\"serviceWorker\" in navigator) \x7b",
    "              navigator.serviceWorker.register(\"/sw.js\").catch((err) => \x7b",
    "                console.error(\"SW registration failed:\", err);",
    "              \x7d);",
    "            \x7d",
    "          \x7d, []);",
    "",
    "          return null;",
    "        \x7d",
    "    " ]

def generate_sw_registration : String × String :=
  ("app/components/ServiceWorkerRegistration.tsx", dedent (linesToRaw swRegistrationLines))

/-- Template literal of `generate_online_hook` (source lines 278-299). -/
def onlineHookLines : List String :=
  [ "        \"use client\";",
    "",
    "        import \x7b useSyncExternalStore \x7d from \"react\";",
    "",
    "        function subscribe(callback: () => void) \x7b",
    "          window.addEventListener(\"online\", callback);",
    "          window.addEventListener(\"offline\", callback);",
    "          return () => \x7b",
    "            window.removeEventListener(\"online\", callback);",
    "            window.removeEventListener(\"offline\", callback);",
    "          \x7d;",
    "        \x7d",
    "",
    "        export function useOnlineStatus() \x7b",
    "          return useSyncExternalStore(",
    "            subscribe,",
    "            () => navigator.onLine,",
    "            () => true",
    "          );",
    "        \x7d",
    "    " ]

def generate_online_hook : String × String :=
  ("hooks/useOnlineStatus.ts", dedent (linesToRaw onlineHookLines))

/-- The `--approach` choices of the argument parser. -/
inductive Approach where
  | serwist
  | manual
  deriving DecidableEq

/-- The parsed request `main` works with: positional `project_name`,
`--approach`, the `--push` and `--offline` flags, and `--output`. -/
structure GenReq where
  project_name : String
  approach : Approach
  push : Bool
  offline : Bool
  output_dir : String

/-- The relative `(path, content)` pairs, in the order `main` passes
them to `write_file`: the manifest always, then the approach-specific
pair, then the optional offline page and online-status hook. -/
def emitRel (r : GenReq) : List (String × String) :=
  [generate_manifest r.project_name] ++
    (match r.approach with
      | .serwist => [generate_serwist_sw r.push, generate_serwist_config]
      | .manual => [generate_manual_sw r.push, generate_sw_registration]) ++
    (if r.offline then [generate_offline_page, generate_online_hook] else [])

/-- The absolute writes `main` performs: `os.path.join` of the output
directory with each relative path. -/
def emit (r : GenReq) : List (String × String) :=
  (emitRel r).map (fun pc => (r.output_dir ++ "/" ++ pc.1, pc.2))

/-- Relative paths of the files written in one run. -/
def writtenRelPaths (r : GenReq) : List String := (emitRel r).map Prod.fst

/-- The file system as a partial map from paths to contents. -/
def FS : Type := String → Option String

/-- One `write_file` call: create or overwrite the target path. -/
def fsWrite (fs : FS) (p c : String) : FS := fun q => if q = p then some c else fs q

/-- Running `main` on a parsed request against a pre-existing file
system: perform the writes in order. -/
def runGen (r : GenReq) (fs : FS) : FS :=
  (emit r).foldl (fun a pc => fsWrite a pc.1 pc.2) fs

/-- Modelled from the spec: `--approach` is "required, exactly one of
two enumerated values; anything else is a parse-time error with nonzero
exit".  This is the `choices=["serwist", "manual"]` validation that
`argparse` performs inside `parser.parse_args()` (source lines
308-313, executed at line 328). -/
def parse_approach (s : String) : Option Approach :=
  if s = "serwist" then some .serwist
  else if s = "manual" then some .manual
  else none

/-- Modelled from the spec: a whole process run.  `parse_args` runs
before any generator, so an invalid `--approach` choice terminates the
process with `SystemExit(2)` and no writes; a valid parse reaches the
generator calls of `main`.  Returns the exit code and the ordered list
of writes performed. -/
def runCLI (project_name approachStr : String) (push offline : Bool)
    (output_dir : String) : Nat × List (String × String) :=
  match parse_approach approachStr with
  | none => (2, [])
  | some a => (0, emit ⟨project_name, a, push, offline, output_dir⟩)

/-- `pat in s` restricted to the start of `s` (`str.startswith`). -/
def strStarts (s pat : String) : Bool := pfx pat.data s.data

/-- The worker script content emitted for a request: `app/sw.ts` for the
serwist approach, `public/sw.js` for the manual approach. -/
def workerScript (r : GenReq) : String :=
  match r.approach with
  | .serwist => (generate_serwist_sw r.push).2
  | .manual => (generate_manual_sw r.push).2

/-- The push handler block of each approach, as spliced. -/
def pushBlockFor : Approach → String
  | .serwist => serwistPushBlock
  | .manual => manualPushBlock

/-- The notificationclick handler block of each approach, as spliced. -/
def clickBlockFor : Approach → String
  | .serwist => serwistClickBlock
  | .manual => manualClickBlock

/-- The request of the serwist end-to-end scenario. -/
def reqC3 : GenReq := ⟨"my-application", .serwist, true, true, "."⟩

/-- The request of the manual end-to-end scenario. -/
def reqC8 : GenReq := ⟨"shop", .manual, false, false, "."⟩

/-- Dedented manifest text before the spliced `project_name`. -/
def manifestPre : String :=
  "import type \x7b MetadataRoute \x7d from \"next\";\n\nexport default function manifest(): MetadataRoute.Manifest \x7b\n  return \x7b\n    name: \""

/-- Dedented manifest text between the two splice points. -/
def manifestMid : String := "\",\n    short_name: \""

/-- Dedented manifest text after the spliced `project_name[:12]`. -/
def manifestPost : String :=
  "\",\n    description: \"A Progressive Web App built with Next.js\",\n    start_url: \"/\",\n    display: \"standalone\",\n    background_color: \"#ffffff\",\n    theme_color: \"#000000\",\n    icons: [\n      \x7b src: \"/icons/icon-192.png\", sizes: \"192x192\", type: \"image/png\" \x7d,\n      \x7b src: \"/icons/icon-512.png\", sizes: \"512x512\", type: \"image/png\" \x7d,\n      \x7b\n        src: \"/icons/icon-maskable-512.png\",\n        sizes: \"512x512\",\n        type: \"image/png\",\n        purpose: \"maskable\",\n      \x7d,\n    ],\n  \x7d;\n\x7d\n"

/-- The manifest template lines before dedent, splices abstracted as `t` and `u`. -/
def mdManifest (t u : List Char) : List (List Char) :=
  [ String.data "        import type \x7b MetadataRoute \x7d from \"next\";",
    String.data "",
    String.data "        export default function manifest(): MetadataRoute.Manifest \x7b",
    String.data "          return \x7b",
    (String.data "            name: \"" ++ t) ++ String.data "\",",
    (String.data "            short_name: \"" ++ u) ++ String.data "\",",
    String.data "            description: \"A Progressive Web App built with Next.js\",",
    String.data "            start_url: \"/\",",
    String.data "            display: \"standalone\",",
    String.data "            background_color: \"#ffffff\",",
    String.data "            theme_color: \"#000000\",",
    String.data "            icons: [",
    String.data "              \x7b src: \"/icons/icon-192.png\", sizes: \"192x192\", type: \"image/png\" \x7d,",
    String.data "              \x7b src: \"/icons/icon-512.png\", sizes: \"512x512\", type: \"image/png\" \x7d,",
    String.data "              \x7b",
    String.data "                src: \"/icons/icon-maskable-512.png\",",
    String.data "                sizes: \"512x512\",",
    String.data "                type: \"image/png\",",
    String.data "                purpose: \"maskable\",",
    String.data "              \x7d,",
    String.data "            ],",
    String.data "          \x7d;",
    String.data "        \x7d",
    String.data "    " ]

/-- The manifest template lines after blank-line normalisation. -/
def ndManifest (t u : List Char) : List (List Char) :=
  [ String.data "        import type \x7b MetadataRoute \x7d from \"next\";",
    [],
    String.data "        export default function manifest(): MetadataRoute.Manifest \x7b",
    String.data "          return \x7b",
    (String.data "            name: \"" ++ t) ++ String.data "\",",
    (String.data "            short_name: \"" ++ u) ++ String.data "\",",
    String.data "            description: \"A Progressive Web App built with Next.js\",",
    String.data "            start_url: \"/\",",
    String.data "            display: \"standalone\",",
    String.data "            background_color: \"#ffffff\",",
    String.data "            theme_color: \"#000000\",",
    String.data "            icons: [",
    String.data "              \x7b src: \"/icons/icon-192.png\", sizes: \"192x192\", type: \"image/png\" \x7d,",
    String.data "              \x7b src: \"/icons/icon-512.png\", sizes: \"512x512\", type: \"image/png\" \x7d,",
    String.data "              \x7b",
    String.data "                src: \"/icons/icon-maskable-512.png\",",
    String.data "                sizes: \"512x512\",",
    String.data "                type: \"image/png\",",
    String.data "                purpose: \"maskable\",",
    String.data "              \x7d,",
    String.data "            ],",
    String.data "          \x7d;",
    String.data "        \x7d",
    [] ]

/-- The non-empty normalised manifest lines, whose indents drive the margin. -/
def fdManifest (t u : List Char) : List (List Char) :=
  [ String.data "        import type \x7b MetadataRoute \x7d from \"next\";",
    String.data "        export default function manifest(): MetadataRoute.Manifest \x7b",
    String.data "          return \x7b",
    (String.data "            name: \"" ++ t) ++ String.data "\",",
    (String.data "            short_name: \"" ++ u) ++ String.data "\",",
    String.data "            description: \"A Progressive Web App built with Next.js\",",
    String.data "            start_url: \"/\",",
    String.data "            display: \"standalone\",",
    String.data "            background_color: \"#ffffff\",",
    String.data "            theme_color: \"#000000\",",
    String.data "            icons: [",
    String.data "              \x7b src: \"/icons/icon-192.png\", sizes: \"192x192\", type: \"image/png\" \x7d,",
    String.data "              \x7b src: \"/icons/icon-512.png\", sizes: \"512x512\", type: \"image/png\" \x7d,",
    String.data "              \x7b",
    String.data "                src: \"/icons/icon-maskable-512.png\",",
    String.data "                sizes: \"512x512\",",
    String.data "                type: \"image/png\",",
    String.data "                purpose: \"maskable\",",
    String.data "              \x7d,",
    String.data "            ],",
    String.data "          \x7d;",
    String.data "        \x7d" ]

/-- The manifest template lines after the eight-space margin is stripped. -/
def sdManifest (t u : List Char) : List (List Char) :=
  [ String.data "import type \x7b MetadataRoute \x7d from \"next\";",
    [],
    String.data "export default function manifest(): MetadataRoute.Manifest \x7b",
    String.data "  return \x7b",
    (String.data "    name: \"" ++ t) ++ String.data "\",",
    (String.data "    short_name: \"" ++ u) ++ String.data "\",",
    String.data "    description: \"A Progressive Web App built with Next.js\",",
    String.data "    start_url: \"/\",",
    String.data "    display: \"standalone\",",
    String.data "    background_color: \"#ffffff\",",
    String.data "    theme_color: \"#000000\",",
    String.data "    icons: [",
    String.data "      \x7b src: \"/icons/icon-192.png\", sizes: \"192x192\", type: \"image/png\" \x7d,",
    String.data "      \x7b src: \"/icons/icon-512.png\", sizes: \"512x512\", type: \"image/png\" \x7d,",
    String.data "      \x7b",
    String.data "        src: \"/icons/icon-maskable-512.png\",",
    String.data "        sizes: \"512x512\",",
    String.data "        type: \"image/png\",",
    String.data "        purpose: \"maskable\",",
    String.data "      \x7d,",
    String.data "    ],",
    String.data "  \x7d;",
    String.data "\x7d",
    [] ]

/-- Dedented manifest text before the spliced name, without its opening
quote. -/
def manifestPreQ : String :=
  "import type \x7b MetadataRoute \x7d from \"next\";\n\nexport default function manifest(): MetadataRoute.Manifest \x7b\n  return \x7b\n    name: "

/-- Dedented manifest text between the splices, without the closing
quote of the name field. -/
def manifestMidQ : String := ",\n    short_name: \""

/-- The relative paths written for each approach and offline setting
(they do not depend on `project_name`, `--push`, or `--output`). -/
def pathsFor (a : Approach) (offline : Bool) : List String :=
  ["app/manifest.ts"] ++
    (match a with
      | .serwist => ["app/sw.ts", "next.config.ts"]
      | .manual => ["public/sw.js", "app/components/ServiceWorkerRegistration.tsx"]) ++
    (if offline then ["app/offline/page.tsx", "hooks/useOnlineStatus.ts"] else [])

/-- The worker script content as a function of approach and push flag. -/
def swContentFor (a : Approach) (push : Bool) : String :=
  match a with
  | .serwist => (generate_serwist_sw push).2
  | .manual => (generate_manual_sw push).2
set_option maxRecDepth 20000

theorem data_mk (l : List Char) : (String.mk l).data = l := rfl

theorem marginFold_cons (l : List Char) (rest : List (List Char)) :
    marginFold (l :: rest)
      = rest.foldl (fun m l2 => lcp m (l2.takeWhile isWs)) (l.takeWhile isWs) := rfl

theorem foldl_lcp_const (m : List Char) (L : List (List Char))
    (h : ∀ l ∈ L, lcp m (l.takeWhile isWs) = m) :
    L.foldl (fun acc l2 => lcp acc (l2.takeWhile isWs)) m = m := by
  induction L with
  | nil => rfl
  | cons x xs ih =>
    rw [List.foldl_cons, h x (List.mem_cons_self x xs)]
    exact ih (fun l hl => h l (List.mem_cons_of_mem _ hl))

theorem margin_nd (t u : List Char) :
    marginOf (ndManifest t u) = String.data "        " := by
  unfold marginOf
  rw [show (ndManifest t u).filter (fun l => !l.isEmpty) = fdManifest t u from rfl]
  rw [show fdManifest t u
      = (String.data "        import type \x7b MetadataRoute \x7d from \"next\";")
        :: (fdManifest t u).tail from rfl]
  rw [marginFold_cons]
  rw [show (String.data "        import type \x7b MetadataRoute \x7d from \"next\";").takeWhile isWs
      = String.data "        " from rfl]
  refine foldl_lcp_const _ _ ?_
  intro l hl
  simp only [fdManifest, List.tail_cons, List.mem_cons] at hl
  rcases hl with rfl|rfl|rfl|rfl|rfl|rfl|rfl|rfl|rfl|rfl|rfl|rfl|rfl|rfl|rfl|rfl|rfl|rfl|rfl|rfl|rfl|hl
  all_goals first
    | rfl
    | exact absurd hl (List.not_mem_nil l)

theorem splitNl_singleton (l : List Char) (h : '\n' ∉ l) : splitNl l = [l] := by
  induction l with
  | nil => rfl
  | cons c t ih =>
    have hc : ¬ c = '\n' := by intro e; exact h (by simp [e])
    have ht : '\n' ∉ t := fun m => h (List.mem_cons_of_mem _ m)
    simp [splitNl, hc, ih ht, consHead]

theorem splitNl_append_cons (a b : List Char) (h : '\n' ∉ a) :
    splitNl (a ++ '\n' :: b) = a :: splitNl b := by
  induction a with
  | nil => simp [splitNl]
  | cons c t ih =>
    have hc : ¬ c = '\n' := by intro e; exact h (by simp [e])
    have ht : '\n' ∉ t := fun m => h (List.mem_cons_of_mem _ m)
    simp [splitNl, hc, ih ht, consHead]

theorem splitNl_joinNl (L : List (List Char)) (hne : L ≠ [])
    (h : ∀ l ∈ L, '\n' ∉ l) : splitNl (joinNl L) = L := by
  induction L with
  | nil => exact absurd rfl hne
  | cons l L ih =>
    cases L with
    | nil => simpa [joinNl] using splitNl_singleton l (h l (by simp))
    | cons l2 L2 =>
      rw [show joinNl (l :: l2 :: L2) = l ++ '\n' :: joinNl (l2 :: L2) from rfl,
        splitNl_append_cons _ _ (h l (by simp)),
        ih (by simp) (fun x hx => h x (List.mem_cons_of_mem _ hx))]

theorem joinNl_sdManifest (t u : List Char) :
    joinNl (sdManifest t u)
      = manifestPre.data ++ t ++ manifestMid.data ++ u ++ manifestPost.data := by
  simp only [sdManifest, joinNl, List.nil_append, List.append_assoc]
  rfl

theorem manifest_content_splice (pn : String) (hn : '\n' ∉ pn.data) :
    (generate_manifest pn).2
      = manifestPre ++ pn ++ manifestMid ++ take12 pn ++ manifestPost := by
  obtain ⟨t⟩ := pn
  have hn' : '\n' ∉ t := hn
  have h12 : '\n' ∉ t.take 12 := fun m => hn' (List.take_subset _ _ m)
  have hmem : ∀ l ∈ mdManifest t (t.take 12), '\n' ∉ l := by
    intro l hl
    simp only [mdManifest, List.mem_cons] at hl
    rcases hl with rfl|rfl|rfl|rfl|rfl|rfl|rfl|rfl|rfl|rfl|rfl|rfl|rfl|rfl|rfl|rfl|rfl|rfl|rfl|rfl|rfl|rfl|rfl|rfl|hl
    all_goals first
      | decide
      | exact absurd hl (List.not_mem_nil l)
      | (intro h0
         rcases List.mem_append.mp h0 with h1|h1
         · rcases List.mem_append.mp h1 with h2|h2
           · exact absurd h2 (by decide)
           · first
             | exact hn' h2
             | exact h12 h2
         · exact absurd h1 (by decide))
  have h1 : List.map String.data (manifestLines ⟨t⟩) = mdManifest t (t.take 12) := rfl
  have h2 : List.map normBlank (mdManifest t (t.take 12)) = ndManifest t (t.take 12) := rfl
  have h3 : marginOf (ndManifest t (t.take 12)) = String.data "        " :=
    margin_nd t (t.take 12)
  have h5 : applyMargin (String.data "        ") (ndManifest t (t.take 12))
      = joinNl (sdManifest t (t.take 12)) := by
    rw [show applyMargin (String.data "        ") (ndManifest t (t.take 12))
        = joinNl (List.map (stripMargin (String.data "        ")) (ndManifest t (t.take 12)))
        from rfl]
    rw [show List.map (stripMargin (String.data "        ")) (ndManifest t (t.take 12))
        = sdManifest t (t.take 12) from rfl]
  apply String.ext
  show dedentL (joinNl (List.map String.data (manifestLines ⟨t⟩)))
      = (manifestPre ++ (⟨t⟩ : String) ++ manifestMid ++ take12 ⟨t⟩ ++ manifestPost).data
  unfold dedentL
  rw [h1, splitNl_joinNl (mdManifest t (t.take 12)) (by simp [mdManifest]) hmem, h2, h3, h5,
    joinNl_sdManifest]
  rfl

theorem pfx_append_self (p r : List Char) : pfx p (p ++ r) = true := by
  induction p with
  | nil => rfl
  | cons c cs ih => simp [pfx, ih]

theorem containsL_here (pat r : List Char) : containsL (pat ++ r) pat = true := by
  cases pat with
  | nil =>
    cases r with
    | nil => rfl
    | cons c t => rfl
  | cons c cs =>
    simp only [List.cons_append, containsL, Bool.or_eq_true]
    exact Or.inl (pfx_append_self (c :: cs) r)

theorem containsL_split (x pat y : List Char) : containsL (x ++ (pat ++ y)) pat = true := by
  induction x with
  | nil => simpa using containsL_here pat y
  | cons c cs ih => simp [containsL, ih]

theorem runWrites_not_mem (ws : List (String × String)) (fs : FS) (p : String)
    (h : p ∉ ws.map Prod.fst) :
    ws.foldl (fun a pc => fsWrite a pc.1 pc.2) fs p = fs p := by
  induction ws generalizing fs with
  | nil => rfl
  | cons w ws ih =>
    simp only [List.map_cons, List.mem_cons, not_or] at h
    simp only [List.foldl_cons]
    rw [ih _ h.2]
    simp [fsWrite, h.1]

theorem runWrites_mem (ws : List (String × String)) (fs fs' : FS) (p : String)
    (h : p ∈ ws.map Prod.fst) :
    ws.foldl (fun a pc => fsWrite a pc.1 pc.2) fs p
      = ws.foldl (fun a pc => fsWrite a pc.1 pc.2) fs' p := by
  induction ws generalizing fs fs' with
  | nil => simp at h
  | cons w ws ih =>
    simp only [List.foldl_cons]
    by_cases hp : p ∈ ws.map Prod.fst
    · exact ih _ _ hp
    · have hw : p = w.1 := by
        simp only [List.map_cons, List.mem_cons] at h
        tauto
      rw [runWrites_not_mem _ _ _ hp, runWrites_not_mem _ _ _ hp]
      simp [fsWrite, hw]

theorem writtenRelPaths_eq (pn : String) (a : Approach) (pu o : Bool) (od : String) :
    writtenRelPaths ⟨pn, a, pu, o, od⟩ = pathsFor a o := by
  cases a <;> cases o <;> rfl

theorem workerScript_eq (pn : String) (a : Approach) (pu o : Bool) (od : String) :
    workerScript ⟨pn, a, pu, o, od⟩ = swContentFor a pu := by
  cases a <;> rfl

/-- C1: for every request, the content found at every written path after
a run is independent of the pre-existing file system: two runs of `main`
with identical parsed inputs leave byte-identical contents at all
written paths, and nothing except the request influences them. -/
theorem c1_deterministic_writes (r : GenReq) (fs fs' : FS) (p : String)
    (h : p ∈ (emit r).map Prod.fst) : runGen r fs p = runGen r fs' p :=
  runWrites_mem _ _ _ _ h

theorem c1_deterministic_writes_witness :
    ("out/app/manifest.ts" ∈ (emit ⟨"app", .serwist, false, false, "out"⟩).map Prod.fst) ∧
    runGen ⟨"app", .serwist, false, false, "out"⟩ (fun _ => none) "out/app/manifest.ts"
      = runGen ⟨"app", .serwist, false, false, "out"⟩ (fun _ => some "stale") "out/app/manifest.ts" :=
  ⟨by decide, c1_deterministic_writes ⟨"app", .serwist, false, false, "out"⟩
    (fun _ => none) (fun _ => some "stale") "out/app/manifest.ts" (by decide)⟩

/-- C2 counterexample: for the project name "x\n        y" (which
contains a newline followed by eight spaces), `textwrap.dedent` strips
the spliced name itself, so the emitted manifest does not carry the
name and its first 12 characters verbatim in the two fields. -/
theorem c2_counterexample :
    ¬ ((generate_manifest "x\n        y").2
        = manifestPre ++ "x\n        y" ++ manifestMid
            ++ take12 "x\n        y" ++ manifestPost) := by
  decide

/-- C2 (amended: for every `project_name` that contains no newline):
the manifest content is exactly the fixed dedented template with
`project_name` as the `name` field and its first 12 characters as the
`short_name` field, with no ellipsis and no word-boundary handling. -/
theorem c2_manifest_fields (pn : String) (hn : '\n' ∉ pn.data) :
    (generate_manifest pn).2
      = manifestPre ++ pn ++ manifestMid ++ take12 pn ++ manifestPost :=
  manifest_content_splice pn hn

theorem c2_manifest_fields_witness :
    ('\n' ∉ "demo-app".data) ∧
    (generate_manifest "demo-app").2
      = manifestPre ++ "demo-app" ++ manifestMid ++ take12 "demo-app" ++ manifestPost :=
  ⟨by decide, c2_manifest_fields "demo-app" (by decide)⟩

/-- C3 counterexample: the serwist scenario with push and offline does
not write six files; `main` performs five writes (manifest, worker,
next config, offline page, online-status hook). -/
theorem c3_counterexample : ¬ ((emit reqC3).length = 6) := by decide

/-- C3 (amended: five files, not six): for the request
`("my-application", serwist, push, offline)` exactly five files are
written, the emitted serwist worker script contains both push handler
blocks, and the offline page and the online-status hook are among the
files written. -/
theorem c3_serwist_scenario :
    (emit reqC3).length = 5 ∧
    strContains (workerScript reqC3) serwistPushBlock = true ∧
    strContains (workerScript reqC3) serwistClickBlock = true ∧
    "app/offline/page.tsx" ∈ writtenRelPaths reqC3 ∧
    "hooks/useOnlineStatus.ts" ∈ writtenRelPaths reqC3 :=
  ⟨rfl, by decide, by decide, by decide, by decide⟩

/-- C4: for every request, the emitted worker script contains the push
handler block of its approach exactly when `push` is set, and likewise
the notificationclick handler block; with `push` unset neither block
occurs in the script. -/
theorem c4_push_blocks (r : GenReq) :
    strContains (workerScript r) (pushBlockFor r.approach) = r.push ∧
    strContains (workerScript r) (clickBlockFor r.approach) = r.push := by
  obtain ⟨pn, a, pu, o, od⟩ := r
  rw [workerScript_eq]
  dsimp only
  cases a <;> cases pu <;> exact ⟨by decide, by decide⟩

/-- C5: the serwist approach never writes `public/sw.js`, and the
manual approach never writes a `next.config.*` or `app/sw.*` file. -/
theorem c5_approach_file_sets (r : GenReq) :
    (r.approach = .serwist → "public/sw.js" ∉ writtenRelPaths r) ∧
    (r.approach = .manual → ∀ p ∈ writtenRelPaths r,
      strStarts p "next.config." = false ∧ strStarts p "app/sw." = false) := by
  obtain ⟨pn, a, pu, o, od⟩ := r
  rw [writtenRelPaths_eq]
  constructor
  · rintro rfl
    cases o <;> decide
  · rintro rfl p hp
    cases o <;> revert hp <;> revert p <;> decide

theorem c5_approach_file_sets_witness :
    ((⟨"w", Approach.serwist, true, true, "."⟩ : GenReq).approach = .serwist ∧
      "public/sw.js" ∉ writtenRelPaths ⟨"w", Approach.serwist, true, true, "."⟩) ∧
    ((⟨"w", Approach.manual, true, true, "."⟩ : GenReq).approach = .manual ∧
      "app/manifest.ts" ∈ writtenRelPaths ⟨"w", Approach.manual, true, true, "."⟩ ∧
      strStarts "app/manifest.ts" "next.config." = false ∧
      strStarts "app/manifest.ts" "app/sw." = false) :=
  ⟨⟨rfl, (c5_approach_file_sets ⟨"w", Approach.serwist, true, true, "."⟩).1 rfl⟩,
    ⟨rfl, by decide,
      (c5_approach_file_sets ⟨"w", Approach.manual, true, true, "."⟩).2 rfl
        "app/manifest.ts" (by decide)⟩⟩

/-- C6: an `--approach` value that is not `serwist` or `manual` is
rejected by the argument parser: the process exits with a nonzero code
(`SystemExit(2)`) and performs zero writes, the error occurring before
any file output. -/
theorem c6_invalid_approach (pn s : String) (pu o : Bool) (od : String)
    (h : parse_approach s = none) :
    (runCLI pn s pu o od).1 ≠ 0 ∧ (runCLI pn s pu o od).2 = [] := by
  simp [runCLI, h]

theorem c6_invalid_approach_witness :
    parse_approach "workbox" = none ∧
    (runCLI "app" "workbox" false false ".").1 ≠ 0 ∧
    (runCLI "app" "workbox" false false ".").2 = [] :=
  ⟨by decide, c6_invalid_approach "app" "workbox" false false "." (by decide)⟩

/-- C7: for every approach, push flag and project name, setting
`offline` adds exactly the two writes `app/offline/page.tsx` and
`hooks/useOnlineStatus.ts` at the end of the run, and the emitted
worker script content is identical with and without `offline`. -/
theorem c7_offline_frame (pn : String) (a : Approach) (pu : Bool) (od : String) :
    emitRel ⟨pn, a, pu, true, od⟩
        = emitRel ⟨pn, a, pu, false, od⟩ ++ [generate_offline_page, generate_online_hook] ∧
    writtenRelPaths ⟨pn, a, pu, true, od⟩
        = writtenRelPaths ⟨pn, a, pu, false, od⟩
            ++ ["app/offline/page.tsx", "hooks/useOnlineStatus.ts"] ∧
    workerScript ⟨pn, a, pu, true, od⟩ = workerScript ⟨pn, a, pu, false, od⟩ := by
  cases a <;>
    exact ⟨by simp [emitRel],
      by simp [writtenRelPaths, emitRel, generate_offline_page, generate_online_hook],
      rfl⟩

/-- C8: the manual scenario for project "shop" without push or offline
writes exactly the manifest, `public/sw.js` and the registration
component; the manifest carries `name: "shop"` and
`short_name: "shop"`, and the worker script has a fetch listener but
no push or notificationclick listener. -/
theorem c8_manual_scenario :
    writtenRelPaths reqC8
        = ["app/manifest.ts", "public/sw.js",
            "app/components/ServiceWorkerRegistration.tsx"] ∧
    strContains (generate_manifest "shop").2 "name: \"shop\"" = true ∧
    strContains (generate_manifest "shop").2 "short_name: \"shop\"" = true ∧
    strContains (workerScript reqC8) "self.addEventListener(\"fetch\"" = true ∧
    strContains (workerScript reqC8) "self.addEventListener(\"push\"" = false ∧
    strContains (workerScript reqC8) "self.addEventListener(\"notificationclick\"" = false :=
  ⟨rfl, by decide, by decide, by decide, by decide, by decide⟩

/-- C9: within any single run the relative paths of the files written
are pairwise distinct. -/
theorem c9_paths_distinct (r : GenReq) : (writtenRelPaths r).Nodup := by
  obtain ⟨pn, a, pu, o, od⟩ := r
  rw [writtenRelPaths_eq]
  cases a <;> cases o <;> decide

/-- C10 counterexample: the project name "a\n        b" is not embedded
character-for-character between double quotes in the manifest, because
`textwrap.dedent` strips the eight spaces that follow the newline
inside the spliced name. -/
theorem c10_counterexample :
    strContains (generate_manifest "a\n        b").2 ("\"" ++ "a\n        b" ++ "\"") = false := by
  decide

/-- C10 (amended: for every `project_name` that contains no newline):
the manifest embeds the name character-for-character between double
quotes with no escaping or sanitisation, and for the name `a"b`
(containing a double quote) the emitted manifest carries the broken
literal `name: "a"b",` verbatim. -/
theorem c10_verbatim_quoted :
    (∀ pn : String, '\n' ∉ pn.data →
        strContains (generate_manifest pn).2 ("\"" ++ pn ++ "\"") = true) ∧
    strContains (generate_manifest "a\"b").2 "name: \"a\"b\"," = true := by
  constructor
  · intro pn hn
    obtain ⟨t⟩ := pn
    have hs := manifest_content_splice ⟨t⟩ hn
    show containsL ((generate_manifest ⟨t⟩).2).data (("\"" ++ (⟨t⟩ : String) ++ "\"").data) = true
    rw [hs]
    rw [show (manifestPre ++ (⟨t⟩ : String) ++ manifestMid ++ take12 ⟨t⟩ ++ manifestPost).data
        = (((manifestPre.data ++ t) ++ manifestMid.data) ++ t.take 12) ++ manifestPost.data
        from rfl]
    rw [show (("\"" ++ (⟨t⟩ : String) ++ "\"")).data
        = (String.data "\"" ++ t) ++ String.data "\"" from rfl]
    rw [show manifestPre.data = manifestPreQ.data ++ String.data "\"" from by decide]
    rw [show manifestMid.data = String.data "\"" ++ manifestMidQ.data from by decide]
    rw [show ((((manifestPreQ.data ++ String.data "\"") ++ t)
            ++ (String.data "\"" ++ manifestMidQ.data)) ++ t.take 12) ++ manifestPost.data
        = manifestPreQ.data ++ (((String.data "\"" ++ t) ++ String.data "\"")
            ++ (manifestMidQ.data ++ (t.take 12 ++ manifestPost.data)))
        from by simp only [List.append_assoc]]
    exact containsL_split _ _ _
  · decide

theorem c10_verbatim_quoted_witness :
    ('\n' ∉ "demo".data) ∧
    strContains (generate_manifest "demo").2 ("\"" ++ "demo" ++ "\"") = true :=
  ⟨by decide, c10_verbatim_quoted.1 "demo" (by decide)⟩
